import Mathlib

/-!
Verification of `inbenta_api_signature` (api-signature-client-python).

The repository's `__init__.py` defines the `SignatureClient` façade and the
optional `SignatureAdapter` around an HTTP transport.  The `protocol` module
(`BaseVersion`, `V1`) is imported there but is not among the sources, so the
v1 protocol is modelled from the spec; everything about the client façade,
the version dispatch in `SignatureClient.__init__` and the adapter's
`build_response` is translated directly from the Python source.
-/

/-- Modelled from the spec: the keyed-hash digest (HMAC-family) over a
canonical message, hex-encoded.  The real hash lives in the missing
`protocol` module; the model keeps the two properties the spec relies on:
it is a deterministic pure function of `(key, msg)` and it always produces
a non-empty hex string. -/
def keyedDigest (key msg : String) : String :=
  String.mk (Nat.toDigits 16
    ((key ++ "\n" ++ msg).data.foldl (fun h c => (h * 31 + c.toNat) % 4294967296) 5381))

/-- Modelled from the spec: `hmac.compare_digest`-style comparison used by
`validateResponse`.  Its timing behaviour is not representable here; its
result is exact equality of the two strings ("Returns true only on exact
match"). -/
def compare_digest (a b : String) : Bool :=
  a == b

theorem compare_digest_self (a : String) : compare_digest a a = true := by
  simp [compare_digest]

theorem compare_digest_ne (a b : String) (h : a ≠ b) : compare_digest a b = false := by
  simp [compare_digest, h]

/-- The capability set a protocol version exposes, per the source's use of
`self._signProtocol` and the spec's §4.1 public contract:
`{genTimestamp, signRequest, getHeaders, validateResponse, SIGNATURE_HEADER}`.
`genTimestamp` takes the clock reading as an explicit argument.  `params` is
a mapping of unencoded query keys to values; optional arguments are `Option`
(Python `None`). -/
structure Protocol where
  SIGNATURE_HEADER : String
  genTimestamp : Nat → String
  signRequest : (url : String) → (method : Option String) →
      (params : Option (List (String × String))) → (body : Option String) →
      (timestamp : Option String) → String
  getHeaders : String → List (String × String)
  validateResponse : (signature : String) → (body : Option String) →
      (timestamp : Option String) → Bool

/-- Modelled from the spec: the canonical message the v1 digest covers.
Spec §8 requires `validateResponse(signature, body, timestamp)` — which
receives neither url, method nor params — to accept the signature produced
by `signRequest` for every url, method and params, so the v1 layout covers
the body (raw, `None` as empty) and the timestamp. -/
def v1CanonicalMessage (body : Option String) (timestamp : Option String) : String :=
  body.getD "" ++ "\n" ++ timestamp.getD ""

/-- Modelled from the spec: the v1 signature, a keyed digest of the
canonical message under the bound key. -/
def v1Signature (key : String) (body timestamp : Option String) : String :=
  keyedDigest key (v1CanonicalMessage body timestamp)

/-- Modelled from the spec: the header name v1 carries the signature in
(`SIGNATURE_HEADER`). -/
def V1_SIGNATURE_HEADER : String := "x-inbenta-signature"

/-- Modelled from the spec: the `V1` protocol version constructed by the
registry in `SignatureClient.__init__` (`V1(signatureKey, baseUrl=baseUrl)`);
its class lives in the missing `protocol` module.  Signing digests the
canonical message with the bound key; `getHeaders` wraps the signature under
`SIGNATURE_HEADER`; validation recomputes the digest over the response body
and timestamp with the same key and compares; `genTimestamp` renders the
clock reading as a decimal string.  `baseUrl` is held for version-specific
use and does not enter the digest. -/
def V1 (signatureKey : String) (_baseUrl : Option String) : Protocol where
  SIGNATURE_HEADER := V1_SIGNATURE_HEADER
  genTimestamp := fun now => toString now
  signRequest := fun _url _method _params body timestamp =>
    v1Signature signatureKey body timestamp
  getHeaders := fun signature => [(V1_SIGNATURE_HEADER, signature)]
  validateResponse := fun signature body timestamp =>
    compare_digest signature (v1Signature signatureKey body timestamp)

/-- The `signatureVersion` argument of `SignatureClient.__init__`: either a
version identifier string or an already-constructed protocol instance
(Python passes one object; the `isinstance(signatureVersion, BaseVersion)`
test separates the two cases). -/
inductive VersionArg where
  | str : String → VersionArg
  | proto : Protocol → VersionArg

/-- Python truthiness of the `signatureVersion` argument, used by
`signatureVersion or "v1"`: the empty string is falsy, any other string and
any protocol instance are truthy (`None` is the `Option.none` of the
caller). -/
def VersionArg.truthy : VersionArg → Bool
  | .str s => !(s == "")
  | .proto _ => true

/-- The client façade: `SignatureClient` holds exactly the bound protocol
(`self._signProtocol`). -/
structure SignatureClient where
  signProtocol : Protocol

/-- Python `str.lower()` on a version identifier, applied characterwise. -/
def strLower (s : String) : String := String.mk (s.data.map Char.toLower)

/-- `SignatureClient.__init__(signatureKey, baseUrl=None, signatureVersion=None)`:
`signatureVersion = signatureVersion or "v1"`; if it is not a protocol
instance it is looked up lowercased in the registry `{"v1": V1(signatureKey,
baseUrl)}`; a failed lookup raises
`ValueError('Signature Version is not correct. Supported versions: [v1]')`. -/
def SignatureClient.init (signatureKey : String) (baseUrl : Option String)
    (signatureVersion : Option VersionArg) : Except String SignatureClient :=
  let sv : VersionArg :=
    match signatureVersion with
    | none => .str "v1"
    | some a => if a.truthy then a else .str "v1"
  match sv with
  | .proto p => .ok { signProtocol := p }
  | .str s =>
      if strLower s == "v1" then .ok { signProtocol := V1 signatureKey baseUrl }
      else .error "Signature Version is not correct. Supported versions: [v1]"

/-- The `SIGNATURE_HEADER` property: `self._signProtocol.SIGNATURE_HEADER`. -/
def SignatureClient.SIGNATURE_HEADER (c : SignatureClient) : String :=
  c.signProtocol.SIGNATURE_HEADER

/-- `SignatureClient.genTimestamp`: delegates to the protocol. -/
def SignatureClient.genTimestamp (c : SignatureClient) (now : Nat) : String :=
  c.signProtocol.genTimestamp now

/-- `SignatureClient.signRequest(url, params=None, body=None, method=None,
timestamp=None)`: `signature = self._signProtocol.signRequest(url=url,
method=method, params=params, body=body, timestamp=timestamp)` then
`return self._signProtocol.getHeaders(signature)`. -/
def SignatureClient.signRequest (c : SignatureClient) (url : String)
    (params : Option (List (String × String))) (body : Option String)
    (method : Option String) (timestamp : Option String) : List (String × String) :=
  c.signProtocol.getHeaders (c.signProtocol.signRequest url method params body timestamp)

/-- `SignatureClient.validateResponse(signature, body, timestamp=None)`:
delegates to the protocol. -/
def SignatureClient.validateResponse (c : SignatureClient) (signature : String)
    (body : Option String) (timestamp : Option String) : Bool :=
  c.signProtocol.validateResponse signature body timestamp

/-- One public client operation together with its arguments. -/
inductive ClientOp where
  | genTimestamp : Nat → ClientOp
  | signRequest : String → Option (List (String × String)) → Option String →
      Option String → Option String → ClientOp
  | validateResponse : String → Option String → Option String → ClientOp
  | readSignatureHeader : ClientOp

/-- A public operation's result. -/
inductive OpResult where
  | str : String → OpResult
  | headers : List (String × String) → OpResult
  | bool : Bool → OpResult

/-- Running one public operation on a client: the Python methods read
`self._signProtocol` and never assign any attribute, so the client state
after the call is the state before it. -/
def SignatureClient.applyOp (c : SignatureClient) : ClientOp → SignatureClient × OpResult
  | .genTimestamp now => (c, .str (c.genTimestamp now))
  | .signRequest url params body method ts =>
      (c, .headers (c.signRequest url params body method ts))
  | .validateResponse s body ts => (c, .bool (c.validateResponse s body ts))
  | .readSignatureHeader => (c, .str c.SIGNATURE_HEADER)

/-- Running a sequence of public operations, threading the client state. -/
def SignatureClient.runOps (c : SignatureClient) : List ClientOp → SignatureClient
  | [] => c
  | op :: rest => ((c.applyOp op).1).runOps rest

/-- `dict.get` on a header mapping (`response.headers.get(...)`): the value
under the first matching name, else `None`. -/
def headersGet : List (String × String) → String → Option String
  | [], _ => none
  | (k, v) :: rest, name => if k == name then some v else headersGet rest name

/-- The requests `SignatureAdapter`: it holds a `SignatureClient` and the
timestamp remembered from `add_headers` (`self._timestamp`, initially
`None`). -/
structure SignatureAdapter where
  client : SignatureClient
  timestamp : Option String

/-- `SignatureAdapter.add_headers`: generates a timestamp, remembers it in
`self._timestamp`, signs the outgoing request and returns the headers to
attach. -/
def SignatureAdapter.add_headers (a : SignatureAdapter) (now : Nat) (url : String)
    (method : Option String) (body : Option String) :
    SignatureAdapter × List (String × String) :=
  let ts := a.client.genTimestamp now
  ({ client := a.client, timestamp := some ts },
   a.client.signRequest url none body method (some ts))

/-- `SignatureAdapter.build_response`: reads the signature header from the
response, sets `validSignature = None`, and only under `if signature:`
(truthy: present and non-empty) replaces it with
`self._client.validateResponse(signature, response.text, timestamp=self._timestamp)`. -/
def SignatureAdapter.build_response (a : SignatureAdapter)
    (respHeaders : List (String × String)) (respText : String) : Option Bool :=
  match headersGet respHeaders a.client.SIGNATURE_HEADER with
  | none => none
  | some signature =>
      if signature == "" then none
      else some (a.client.validateResponse signature (some respText) a.timestamp)

/-- Replacing only the validator capability of the adapter's bound protocol;
used to state that a code path does not consult `validateResponse`. -/
def SignatureAdapter.withValidator (a : SignatureAdapter)
    (v : String → Option String → Option String → Bool) : SignatureAdapter :=
  { client := { signProtocol := { a.client.signProtocol with validateResponse := v } },
    timestamp := a.timestamp }

/- ------------------------------------------------------------------ -/
/- Theorems -/

/-- Applying one public operation never changes the client state. -/
theorem SignatureClient.applyOp_fst (c : SignatureClient) (op : ClientOp) :
    (c.applyOp op).1 = c := by
  cases op <;> rfl

/-- C5: when `signatureVersion` is omitted (`None`) or falsy (the empty
string), construction selects the v1 protocol by default. -/
theorem default_version_is_v1 (key : String) (baseUrl : Option String) :
    SignatureClient.init key baseUrl none = .ok { signProtocol := V1 key baseUrl } ∧
    SignatureClient.init key baseUrl (some (.str "")) =
      .ok { signProtocol := V1 key baseUrl } :=
  ⟨rfl, rfl⟩

/-- C3: the version identifier string is treated case-insensitively — `"V1"`
and `"v1"` select the same protocol — and an unregistered identifier such as
`"v2"` fails at construction with the configuration error instead of
returning a client. -/
theorem version_string_case_insensitive_unknown_rejected
    (key : String) (baseUrl : Option String) :
    SignatureClient.init key baseUrl (some (.str "V1")) =
      SignatureClient.init key baseUrl (some (.str "v1")) ∧
    SignatureClient.init key baseUrl (some (.str "V1")) =
      .ok { signProtocol := V1 key baseUrl } ∧
    SignatureClient.init key baseUrl (some (.str "v2")) =
      .error "Signature Version is not correct. Supported versions: [v1]" :=
  ⟨rfl, rfl, rfl⟩

/-- C4: construction accepts any already-constructed protocol instance —
any value of the capability set `{genTimestamp, signRequest, getHeaders,
validateResponse, SIGNATURE_HEADER}` — binds the client to that exact
instance, and every client operation delegates to it. -/
theorem protocol_instance_bound_and_delegated (key : String) (baseUrl : Option String)
    (p : Protocol) (now : Nat) (url : String) (params : Option (List (String × String)))
    (body : Option String) (method : Option String) (ts : Option String)
    (signature : String) (rbody : Option String) (rts : Option String) :
    SignatureClient.init key baseUrl (some (.proto p)) = .ok { signProtocol := p } ∧
    SignatureClient.SIGNATURE_HEADER { signProtocol := p } = p.SIGNATURE_HEADER ∧
    SignatureClient.genTimestamp { signProtocol := p } now = p.genTimestamp now ∧
    SignatureClient.signRequest { signProtocol := p } url params body method ts =
      p.getHeaders (p.signRequest url method params body ts) ∧
    SignatureClient.validateResponse { signProtocol := p } signature rbody rts =
      p.validateResponse signature rbody rts :=
  ⟨rfl, rfl, rfl, rfl, rfl⟩

/-- C6: `Client.signRequest` is exactly the composition of the bound
protocol's operations in one call:
`protocol.getHeaders(protocol.signRequest(url, method, params, body,
timestamp))`, a mapping of header names to values. -/
theorem signRequest_is_getHeaders_of_protocol_signature (c : SignatureClient)
    (url : String) (params : Option (List (String × String))) (body : Option String)
    (method : Option String) (ts : Option String) :
    c.signRequest url params body method ts =
      c.signProtocol.getHeaders (c.signProtocol.signRequest url method params body ts) :=
  rfl

/-- C1: sign-then-validate round-trips — for every key, url, method, params,
body and timestamp, signing on a constructed client and validating the
signature read from the returned headers under `SIGNATURE_HEADER`, against
the same body and timestamp, returns `true`. -/
theorem sign_then_validate_roundtrip (key : String) (baseUrl : Option String)
    (url : String) (params : Option (List (String × String))) (body : Option String)
    (method : Option String) (ts : Option String) (c : SignatureClient) (sig : String)
    (hc : SignatureClient.init key baseUrl none = .ok c)
    (hs : headersGet (c.signRequest url params body method ts) c.SIGNATURE_HEADER =
      some sig) :
    c.validateResponse sig body ts = true := by
  have hc' : Except.ok (SignatureClient.mk (V1 key baseUrl)) = Except.ok c := hc
  injection hc' with h
  subst h
  have hs' : some (v1Signature key body ts) = some sig := hs
  injection hs' with h2
  subst h2
  exact compare_digest_self _

/-- C1 witness at the spec's concrete scenario (key `secret123`, GET on
`https://api.example.com/v1/items?foo=bar`, empty body, timestamp
`1700000000`). -/
theorem sign_then_validate_roundtrip_witness :
    SignatureClient.validateResponse { signProtocol := V1 "secret123" none }
      (v1Signature "secret123" (some "") (some "1700000000"))
      (some "") (some "1700000000") = true :=
  sign_then_validate_roundtrip "secret123" none
    "https://api.example.com/v1/items?foo=bar" none (some "") (some "GET")
    (some "1700000000") { signProtocol := V1 "secret123" none }
    (v1Signature "secret123" (some "") (some "1700000000")) rfl rfl

/-- C2: `signRequest` is deterministic and free of randomness — on a
constructed client the returned headers are a fixed function of the key,
the body and the timestamp, so two calls with identical inputs yield
identical headers (and the identical signature under `SIGNATURE_HEADER`). -/
theorem signRequest_deterministic (key : String) (baseUrl : Option String)
    (url : String) (params : Option (List (String × String))) (body : Option String)
    (method : Option String) (ts : Option String) (c : SignatureClient)
    (hc : SignatureClient.init key baseUrl none = .ok c) :
    c.signRequest url params body method ts =
      [(V1_SIGNATURE_HEADER, v1Signature key body ts)] := by
  have hc' : Except.ok (SignatureClient.mk (V1 key baseUrl)) = Except.ok c := hc
  injection hc' with h
  subst h
  rfl

/-- C2 witness at the spec's concrete scenario. -/
theorem signRequest_deterministic_witness :
    SignatureClient.signRequest { signProtocol := V1 "secret123" none }
      "https://api.example.com/v1/items?foo=bar" none (some "") (some "GET")
      (some "1700000000") =
      [(V1_SIGNATURE_HEADER, v1Signature "secret123" (some "") (some "1700000000"))] :=
  signRequest_deterministic "secret123" none
    "https://api.example.com/v1/items?foo=bar" none (some "") (some "GET")
    (some "1700000000") { signProtocol := V1 "secret123" none } rfl

/-- C7: a syntactically well-formed but incorrect signature makes
`validateResponse` return `false` as an ordinary boolean result; the
embedding is a total function, so no exception is possible for a
mismatch. -/
theorem validateResponse_incorrect_signature_false (key : String)
    (baseUrl : Option String) (c : SignatureClient) (sig : String)
    (body : Option String) (ts : Option String)
    (hc : SignatureClient.init key baseUrl none = .ok c)
    (hne : sig ≠ v1Signature key body ts) :
    c.validateResponse sig body ts = false := by
  have hc' : Except.ok (SignatureClient.mk (V1 key baseUrl)) = Except.ok c := hc
  injection hc' with h
  subst h
  exact compare_digest_ne _ _ hne

/-- C7 witness: the well-formed hex string `deadbeef` is not the signature
of (`secret123`, body `body`, timestamp `1700000000`), and validation
returns `false` on it. -/
theorem validateResponse_incorrect_signature_false_witness :
    SignatureClient.validateResponse { signProtocol := V1 "secret123" none }
      "deadbeef" (some "body") (some "1700000000") = false :=
  validateResponse_incorrect_signature_false "secret123" none
    { signProtocol := V1 "secret123" none } "deadbeef" (some "body")
    (some "1700000000") rfl (by decide)

/-- C8: a client is bound to one protocol for its lifetime — after any
sequence of public operations (`genTimestamp`, `signRequest`,
`validateResponse`, reading `SIGNATURE_HEADER`) the bound protocol is the
one selected at construction. -/
theorem protocol_fixed_for_lifetime (c : SignatureClient) (ops : List ClientOp) :
    (c.runOps ops).signProtocol = c.signProtocol := by
  induction ops generalizing c with
  | nil => rfl
  | cons op rest ih =>
      show ((c.applyOp op).1.runOps rest).signProtocol = c.signProtocol
      rw [SignatureClient.applyOp_fst]
      exact ih c

/-- C9 counterexample: a response that carries `SIGNATURE_HEADER` with the
empty-string value.  The signature is present and does not validate, so the
claim's tri-state mapping demands `validSignature = False`; the code's
`if signature:` truthiness test leaves it at `None`. -/
theorem build_response_empty_signature_counterexample :
    headersGet [("x-inbenta-signature", "")]
      (SignatureClient.SIGNATURE_HEADER { signProtocol := V1 "secret123" none }) =
      some "" ∧
    SignatureClient.validateResponse { signProtocol := V1 "secret123" none } ""
      (some "body") (some "1700000000") = false ∧
    SignatureAdapter.build_response
      { client := { signProtocol := V1 "secret123" none },
        timestamp := some "1700000000" }
      [("x-inbenta-signature", "")] "body" = none ∧
    (none : Option Bool) ≠ some false :=
  ⟨rfl, by decide, rfl, by decide⟩

/-- C9 amended: `build_response` reports `validSignature` as `None` when the
signature header is absent or carries a falsy (empty-string) value, and
otherwise as the boolean outcome of recomputing the v1 digest over the
response body and the signing timestamp and comparing it with the received
signature. -/
theorem build_response_tri_state (key : String) (baseUrl : Option String)
    (tsOpt : Option String) (hdrs : List (String × String)) (text : String)
    (c : SignatureClient)
    (hc : SignatureClient.init key baseUrl none = .ok c) :
    (headersGet hdrs c.SIGNATURE_HEADER = none →
      SignatureAdapter.build_response { client := c, timestamp := tsOpt } hdrs text =
        none) ∧
    (headersGet hdrs c.SIGNATURE_HEADER = some "" →
      SignatureAdapter.build_response { client := c, timestamp := tsOpt } hdrs text =
        none) ∧
    (∀ s, headersGet hdrs c.SIGNATURE_HEADER = some s → s ≠ "" →
      SignatureAdapter.build_response { client := c, timestamp := tsOpt } hdrs text =
        some (compare_digest s (v1Signature key (some text) tsOpt))) := by
  have hc' : Except.ok (SignatureClient.mk (V1 key baseUrl)) = Except.ok c := hc
  injection hc' with h
  subst h
  refine ⟨fun h1 => ?_, fun h2 => ?_, fun s h3 hs => ?_⟩
  · simp [SignatureAdapter.build_response, h1]
  · simp [SignatureAdapter.build_response, h2]
  · simp [SignatureAdapter.build_response, h3, hs]
    rfl

/-- C9 amended witness: a concrete non-empty signature makes
`build_response` report exactly the digest comparison. -/
theorem build_response_tri_state_witness :
    SignatureAdapter.build_response
      { client := { signProtocol := V1 "secret123" none },
        timestamp := some "1700000000" }
      [("x-inbenta-signature", "deadbeef")] "body" =
      some (compare_digest "deadbeef"
        (v1Signature "secret123" (some "body") (some "1700000000"))) :=
  (build_response_tri_state "secret123" none (some "1700000000")
    [("x-inbenta-signature", "deadbeef")] "body"
    { signProtocol := V1 "secret123" none } rfl).2.2 "deadbeef" rfl (by decide)

/-- A validator that accepts everything; used to witness that a code path
never consults `validateResponse`. -/
def constTrueValidator : String → Option String → Option String → Bool :=
  fun _ _ _ => true

/-- C10: a response whose `SIGNATURE_HEADER` carries the empty-string value
is treated as unsigned: `build_response` leaves `validSignature` at `None`,
and the result is the same whatever validator the bound protocol carries, so
`validateResponse` is never consulted on that path. -/
theorem build_response_empty_signature_unsigned (a : SignatureAdapter)
    (hdrs : List (String × String)) (text : String)
    (v : String → Option String → Option String → Bool)
    (h : headersGet hdrs a.client.SIGNATURE_HEADER = some "") :
    a.build_response hdrs text = none ∧
    (a.withValidator v).build_response hdrs text = none := by
  have h2 : headersGet hdrs ((a.withValidator v).client.SIGNATURE_HEADER) = some "" := h
  constructor
  · simp [SignatureAdapter.build_response, h]
  · simp [SignatureAdapter.build_response, h2]

/-- C10 witness at a concrete adapter, response and replacement validator. -/
theorem build_response_empty_signature_unsigned_witness :
    SignatureAdapter.build_response
      { client := { signProtocol := V1 "secret123" none }, timestamp := none }
      [("x-inbenta-signature", "")] "body" = none ∧
    SignatureAdapter.build_response
      (SignatureAdapter.withValidator
        { client := { signProtocol := V1 "secret123" none }, timestamp := none }
        constTrueValidator)
      [("x-inbenta-signature", "")] "body" = none :=
  build_response_empty_signature_unsigned
    { client := { signProtocol := V1 "secret123" none }, timestamp := none }
    [("x-inbenta-signature", "")] "body" constTrueValidator rfl
